import Mathlib

/-!
Verification of the diabay processing-pipeline core and its frontend state
handling. Pure TypeScript code (type unions, the stats store reducer, the
WebSocket reconnect backoff, the duplicates page grouping UI) is embedded
directly; the backend pipeline procedures (duplicate scan, auto preset
selection, telemetry formulas, alert generation) are modelled from the
specification, as their implementation is not part of the frontend sources.
-/

namespace Diabay

/-! ## Image record types (src/frontend/src/types/image.ts) -/

/-- Status union from `types/image.ts`:
`'pending' | 'processing' | 'complete' | 'error'`. -/
inductive ImageStatus where
  | pending | processing | complete | error
  deriving DecidableEq, Repr

/-- Stage union from `types/image.ts`:
`'ingestion' | 'enhancement' | 'tagging' | 'saving'`. -/
inductive ProcessingStage where
  | ingestion | enhancement | tagging | saving
  deriving DecidableEq, Repr

/-- The wire string of an `ImageStatus` value. -/
def ImageStatus.toStr : ImageStatus → String
  | .pending => "pending"
  | .processing => "processing"
  | .complete => "complete"
  | .error => "error"

/-- The wire string of a `ProcessingStage` value. -/
def ProcessingStage.toStr : ProcessingStage → String
  | .ingestion => "ingestion"
  | .enhancement => "enhancement"
  | .tagging => "tagging"
  | .saving => "saving"

/-- Preset union from `types/image.ts`. -/
inductive EnhancementPreset where
  | gentle | balanced | aggressive | auto
  deriving DecidableEq, Repr

/-- Enhancement parameter record from `types/image.ts`
(`histogram_clip`, `clahe_clip`, `face_detected`, `preset_used?`). -/
structure EnhancementParams where
  histogram_clip : ℚ
  clahe_clip : ℚ
  face_detected : Bool
  preset_used : Option EnhancementPreset
  deriving DecidableEq, Repr

/-- The `Image` interface from `types/image.ts`, with pixel content added so
that fingerprints are computable (the TS record carries paths instead). -/
structure Img where
  id : ℕ
  filename : String
  created_at : ℕ
  file_size : ℕ
  width : ℕ
  height : ℕ
  status : ImageStatus
  stage : Option ProcessingStage
  pixels : List ℕ
  deriving DecidableEq, Repr

/-! ## Stats types (src/frontend/src/types/stats.ts) -/

inductive Trend where
  | accelerating | stable | degrading
  deriving DecidableEq, Repr

inductive AlertType where
  | stall_warning | performance_degradation | high_error_rate
  | all_errors | error | info
  deriving DecidableEq, Repr

inductive Severity where
  | info | warning | error
  deriving DecidableEq, Repr

structure ErrorLogEntry where
  filename : String
  error : String
  timestamp : String
  stage : String
  deriving DecidableEq, Repr

structure Alert where
  type : AlertType
  message : String
  timestamp : String
  severity : Option Severity
  deriving DecidableEq, Repr

structure HourlyCount where
  hour : String
  timestamp : String
  count : ℕ
  deriving DecidableEq, Repr

structure TagCount where
  tag : String
  count : ℕ
  deriving DecidableEq, Repr

structure CurrentStatus where
  is_processing : Bool
  current_file : Option String
  current_stage : Option String
  progress : ℚ
  error : Option String
  deriving DecidableEq, Repr

structure PipelineCounts where
  input_queue : ℕ
  analysed_queue : ℕ
  completed_total : ℕ
  completed_session : ℕ
  deriving DecidableEq, Repr

structure Performance where
  pictures_per_hour : ℚ
  avg_time_per_image : Option ℚ
  eta_minutes : Option ℚ
  eta_timestamp : Option String
  processing_trend : Option Trend
  deriving DecidableEq, Repr

structure HistoryStats where
  session_duration_hours : Option ℚ
  error_count : Option ℕ
  hourly_timeline : Option (List HourlyCount)
  error_log : Option (List ErrorLogEntry)
  deriving DecidableEq, Repr

structure TagStats where
  ai_tags : List TagCount
  user_tags : List TagCount
  total_tags : ℕ
  total_images_tagged : ℕ
  deriving DecidableEq, Repr

structure PipelineStats where
  current : CurrentStatus
  pipeline : PipelineCounts
  performance : Performance
  history : Option HistoryStats
  alerts : Option (List Alert)
  tags : Option TagStats
  deriving DecidableEq, Repr

/-- `WebSocketMessage = PipelineStats | ImageDeletedEvent` from `types/stats.ts`;
the deleted-image event is the variant carrying a `type: 'image_deleted'` tag. -/
inductive WebSocketMessage where
  | statsUpdate (stats : PipelineStats)
  | imageDeleted (image_id : ℕ) (filename : String)
  deriving DecidableEq, Repr

/-! ## Stats store (src/frontend/src/store/useStatsStore.ts) -/

/-- Connection status union from the WebSocket client module. -/
inductive WebSocketStatus where
  | connecting | connected | disconnected | error
  deriving DecidableEq, Repr

/-- The zustand store state of `useStatsStore`. `lastUpdate` is the time
`new Date()` was observed, modelled as a natural-number clock. -/
structure StatsStore where
  stats : Option PipelineStats
  isConnected : Bool
  connectionStatus : WebSocketStatus
  lastUpdate : Option ℕ
  lastDeletedImageId : Option ℕ
  deriving DecidableEq, Repr

/-- `handleWebSocketMessage` from `useStatsStore.ts`: a message tagged
`image_deleted` records the deleted id; any other message is a stats update
that replaces `stats`, stamps `lastUpdate` with the current time and marks
the connection live. -/
def handleWebSocketMessage (now : ℕ) (message : WebSocketMessage)
    (s : StatsStore) : StatsStore :=
  match message with
  | .imageDeleted image_id _ => { s with lastDeletedImageId := some image_id }
  | .statsUpdate ps =>
      { s with stats := some ps, lastUpdate := some now, isConnected := true }

/-! ## WebSocket reconnect backoff (src/unnamed/part_006, `WebSocketManager`) -/

/-- `this.reconnectDelay = config.reconnectDelay || 2000`. -/
def defaultReconnectDelay : ℚ := 2000

/-- `private maxReconnectDelay = 30000`. -/
def maxReconnectDelayMs : ℚ := 30000

/-- Delay scheduled by `attemptReconnect` for reconnection attempt `n ≥ 1`:
`Math.min(this.reconnectDelay * Math.pow(1.5, this.reconnectAttempts - 1),
this.maxReconnectDelay)`. -/
def reconnectBackoffDelay (base : ℚ) (n : ℕ) : ℚ :=
  min (base * (3 / 2) ^ (n - 1)) maxReconnectDelayMs

/-! ## Telemetry performance formulas (spec §4.5)

The telemetry aggregator itself is a backend component whose code is not
among the frontend sources; its arithmetic is modelled from the spec. -/

/-- Modelled from the spec: the backend telemetry aggregator is missing from
the sources; "pictures-per-hour = completed_session / elapsed_session_hours". -/
def picturesPerHour (completedSession : ℕ) (elapsedSessionHours : ℚ) : ℚ :=
  completedSession / elapsedSessionHours

/-- Modelled from the spec: the backend telemetry aggregator is missing from
the sources; "ETA = remaining_queue × avg_time", with the average time per
image given in seconds and the ETA reported in minutes. -/
def etaMinutes (remainingQueue : ℕ) (avgSecondsPerImage : ℚ) : ℚ :=
  remainingQueue * avgSecondsPerImage / 60

/-- Arithmetic mean of a list of durations (seconds). -/
def avgTime (times : List ℚ) : ℚ := times.sum / times.length

/-- Modelled from the spec: the backend trend classifier is missing from the
sources; "trend classified by comparing the rolling average of the last N
completions against the previous N (accelerating if ≥10% faster, degrading
if ≥10% slower, else stable)". Times are durations, so at least 10% faster
means the recent average is at most 90% of the previous one. -/
def classifyTrend (prevAvg recentAvg : ℚ) : Trend :=
  if recentAvg ≤ (9 / 10) * prevAvg then .accelerating
  else if (11 / 10) * prevAvg ≤ recentAvg then .degrading
  else .stable

/-- Modelled from the spec: rolling-window trend over per-image completion
times listed most recent first — the last `N` completions against the
previous `N`. -/
def processingTrend (times : List ℚ) (N : ℕ) : Trend :=
  classifyTrend (avgTime ((times.drop N).take N)) (avgTime (times.take N))

/-! ## Alert generation (spec §4.5, types from src/frontend/src/types/stats.ts) -/

/-- Session counters and error log (spec §3, ProcessingSession). -/
structure SessionState where
  error_count : ℕ
  completed_session : ℕ
  minutesSinceLastCompletion : Option ℚ
  error_log : List ErrorLogEntry
  deriving DecidableEq, Repr

/-- Queue sizes visible to the aggregator. -/
structure QueueState where
  input_queue : ℕ
  analysed_queue : ℕ
  deriving DecidableEq, Repr

/-- Session error rate `error_count / (error_count + completed_session)`
(zero when nothing has been attempted). -/
def errorRate (sess : SessionState) : ℚ :=
  if sess.error_count + sess.completed_session = 0 then 0
  else (sess.error_count : ℚ) / (sess.error_count + sess.completed_session)

/-- Modelled from the spec: the backend alert generator is missing from the
sources; alerts are "generated, not stored" — `stall_warning` if no
completion in the last `stallMinutes` minutes while the queue is non-empty,
`high_error_rate` if the session error rate exceeds `errThreshold`, and
`all_errors` surfacing the bounded error log. -/
def generateAlerts (stallMinutes errThreshold : ℚ) (now : String)
    (sess : SessionState) (q : QueueState) : List Alert :=
  (match sess.minutesSinceLastCompletion with
    | some m =>
        if stallMinutes ≤ m ∧ 0 < q.input_queue + q.analysed_queue then
          [{ type := .stall_warning,
             message := "No completion while queue is non-empty",
             timestamp := now, severity := some .warning }]
        else []
    | none => []) ++
  (if errThreshold < errorRate sess then
    [{ type := .high_error_rate,
       message := "Session error rate above threshold",
       timestamp := now, severity := some .error }]
   else []) ++
  (if sess.error_log ≠ [] then
    [{ type := .all_errors,
       message := "Recent errors in the session log",
       timestamp := now, severity := some .info }]
   else [])

/-- Modelled from the spec: the alerts of a telemetry snapshot are recomputed
from the session and queue state at snapshot time. -/
def snapshotAlerts (stallMinutes errThreshold : ℚ) (now : String)
    (sess : SessionState) (q : QueueState) : Option (List Alert) :=
  some (generateAlerts stallMinutes errThreshold now sess q)

/-! ## Enhancement selector (spec §4.4; preset table from src/unnamed/part_010) -/

inductive PresetName where
  | gentle | balanced | aggressive
  deriving DecidableEq, Repr

/-- Raw preset parameters: `histogram_clip` and `clahe_clip`. -/
structure PresetParams where
  histogram_clip : ℚ
  clahe_clip : ℚ
  deriving DecidableEq, Repr

/-- The `presets` table of `PresetComparison` (src/unnamed/part_010):
gentle `{0.3, 1.0}`, balanced `{0.5, 1.5}`, aggressive `{0.7, 2.0}`. -/
def presetParams : PresetName → PresetParams
  | .gentle => { histogram_clip := 3 / 10, clahe_clip := 1 }
  | .balanced => { histogram_clip := 1 / 2, clahe_clip := 3 / 2 }
  | .aggressive => { histogram_clip := 7 / 10, clahe_clip := 2 }

/-- The three concrete presets, in their declared order. -/
def presetList : List PresetName := [.gentle, .balanced, .aggressive]

/-- Quality measurements of an enhanced candidate image. -/
structure EnhanceMetrics where
  sharpness : ℚ
  contrast : ℚ
  dynamicRange : ℚ
  deriving DecidableEq, Repr

/-- Modelled from the spec: the backend scoring of auto mode is missing from
the sources; "sharpness (Laplacian-variance proxy) 40%, contrast (standard
deviation) 30%, dynamic range (max–min spread) 30%". -/
def enhancementScore (m : EnhanceMetrics) : ℚ :=
  (2 / 5) * m.sharpness + (3 / 10) * m.contrast + (3 / 10) * m.dynamicRange

/-- Keep the best-scoring candidate so far, replacing it only on a strictly
higher score (earlier presets win ties). -/
def pickBest (score : PresetName → ℚ) : PresetName → List PresetName → PresetName
  | best, [] => best
  | best, c :: rest => pickBest score (if score best < score c then c else best) rest

/-- Modelled from the spec: the backend auto mode is missing from the sources;
"run the three concrete presets, score each output ... and select the
highest-scoring result". `measure` yields the metrics of the output the
given preset produces on the input image. -/
def autoSelect (measure : PresetName → EnhanceMetrics) : PresetName :=
  pickBest (fun p => enhancementScore (measure p)) .gentle [.balanced, .aggressive]

/-- Parameters returned by auto mode: exactly the declared parameters of the
selected preset. -/
def autoSelectParams (measure : PresetName → EnhanceMetrics) : PresetParams :=
  presetParams (autoSelect measure)

/-! ## Duplicate detector (spec §4.3; group shape from src/frontend/src/types/image.ts) -/

/-- Scan source union from `types/image.ts`: `'input' | 'output'`. -/
inductive ScanSource where
  | input | output
  deriving DecidableEq, Repr

/-- Group type union from `types/image.ts`: `'exact' | 'near' | 'similar'`. -/
inductive DupType where
  | exact | near | similar
  deriving DecidableEq, Repr

/-- A perceptual fingerprint: a fixed bit string. -/
abbrev Fingerprint := List Bool

/-- Modelled from the spec: the backend fingerprint computation is missing
from the sources; a "standard difference/average hash" — each pixel compares
against the image's mean intensity. -/
def avgHash (pixels : List ℕ) : Fingerprint :=
  let avg := pixels.sum / pixels.length
  pixels.map fun p => decide (avg ≤ p)

/-- Fingerprint of an image's pixel content. -/
def fingerprint (img : Img) : Fingerprint := avgHash img.pixels

/-- Number of differing bits between two fingerprints. -/
def hammingDistance (a b : Fingerprint) : ℕ :=
  (List.zipWith (fun x y => x != y) a b).count true

/-- Modelled from the spec: "Hamming distance normalized to [0,1], where
0 = identical". -/
def fpDistance (a b : Fingerprint) : ℚ :=
  (hammingDistance a b : ℚ) / max a.length b.length

/-- An image paired with its (possibly cached) fingerprint. -/
abbrev FpImg := Img × Fingerprint

/-- Two fingerprinted images are within the duplicate threshold when their
distance is at most `1 - threshold` (spec §4.3, glossary). -/
def withinThreshold (threshold : ℚ) (x y : FpImg) : Bool :=
  decide (fpDistance x.2 y.2 ≤ 1 - threshold)

/-- One union-find-style merge step: a new image joins, and every existing
component containing an image within threshold of it is merged into the new
image's component (transitive closure over the threshold relation). -/
def mergeStep (threshold : ℚ) (comps : List (List FpImg)) (x : FpImg) :
    List (List FpImg) :=
  (x :: (comps.filter fun c => c.any (withinThreshold threshold x)).flatten) ::
    comps.filter fun c => ! c.any (withinThreshold threshold x)

/-- Connected components of the image list under the threshold relation. -/
def components (threshold : ℚ) (pairs : List FpImg) : List (List FpImg) :=
  pairs.foldl (mergeStep threshold) []

/-- Representative preference (spec §4.3): "prefer the earliest `created_at`;
if tied, prefer the larger `file_size`". -/
def preferOver (a b : Img) : Bool :=
  a.created_at < b.created_at ∨
    (a.created_at = b.created_at ∧ b.file_size < a.file_size)

/-- Best representative among a non-empty collection of candidates. -/
def repOf : FpImg → List FpImg → FpImg
  | r, [] => r
  | r, x :: xs => repOf (if preferOver x.1 r.1 then x else r) xs

/-- Remove the first occurrence of an element from a list. -/
def removeFirst (x : FpImg) : List FpImg → List FpImg
  | [] => []
  | y :: ys => if y = x then ys else y :: removeFirst x ys

/-- Order a component with its representative first, the way the duplicates
page consumes a group (`[originalImage, ...duplicateImages]`). -/
def orderGroup (c : List FpImg) : List FpImg :=
  match c with
  | [] => []
  | m :: ms => repOf m ms :: removeFirst (repOf m ms) c

/-- Largest pairwise fingerprint distance within a component. -/
def groupDistance (c : List FpImg) : ℚ :=
  ((c.map fun a => c.map fun b => fpDistance a.2 b.2).flatten).foldl max 0

/-- Modelled from the spec: the tight secondary threshold separating `near`
from `similar`, "(e.g. 0.02 above exact)". -/
def nearThreshold : ℚ := 1 / 50

/-- Modelled from the spec: "`exact` if distance = 0, `near` if distance ≤ a
tight secondary threshold (e.g. 0.02 above exact), otherwise `similar`". -/
def classifyGroup (d : ℚ) : DupType :=
  if d = 0 then .exact else if d ≤ nearThreshold then .near else .similar

/-- The `DuplicateGroup` record from `types/image.ts`:
`{id, images, similarity, type, source}`. -/
structure DuplicateGroup where
  id : String
  images : List Img
  similarity : ℚ
  type : DupType
  source : ScanSource
  deriving DecidableEq, Repr

/-- Group assembled from one component: representative first, similarity
`1 - distance`, id derived from the representative. -/
def mkGroup (source : ScanSource) (c : List FpImg) : DuplicateGroup :=
  let ordered := orderGroup c
  let d := groupDistance c
  { id := toString ((ordered.head?.map fun p => p.1.id).getD 0),
    images := ordered.map Prod.fst,
    similarity := 1 - d,
    type := classifyGroup d,
    source := source }

/-- Fingerprint cache: stored fingerprints by image id, `none` if absent. -/
abbrev FpCache := ℕ → Option Fingerprint

/-- The empty cache. -/
def emptyCache : FpCache := fun _ => none

/-- Fingerprint of an image, "compute a content fingerprint if not already
cached" (spec §4.3). -/
def fpOf (cache : FpCache) (img : Img) : Fingerprint :=
  (cache img.id).getD (fingerprint img)

/-- Pair every image with its fingerprint under the given cache. -/
def pairsOf (cache : FpCache) (imgs : List Img) : List FpImg :=
  imgs.map fun i => (i, fpOf cache i)

/-- Modelled from the spec: the backend `scan(source, threshold)` is missing
from the sources; cluster fingerprinted images into components under the
threshold relation and keep every component with at least two members as a
`DuplicateGroup`. -/
def scanCore (source : ScanSource) (threshold : ℚ) (pairs : List FpImg) :
    List DuplicateGroup :=
  ((components threshold pairs).filter fun c => 2 ≤ c.length).map
    (mkGroup source)

/-- One scan run: the groups, plus the cache updated with every fingerprint
used during the run. -/
def runScan (cache : FpCache) (source : ScanSource) (imgs : List Img)
    (threshold : ℚ) : List DuplicateGroup × FpCache :=
  (scanCore source threshold (pairsOf cache imgs),
   fun n => match imgs.find? fun i => i.id = n with
     | some i => some (fpOf cache i)
     | none => cache n)

/-- A scan from a cold cache. -/
def scan (source : ScanSource) (imgs : List Img) (threshold : ℚ) :
    List DuplicateGroup :=
  (runScan emptyCache source imgs threshold).1

/-- The duplicates page destructures a group as
`[originalImage, ...duplicateImages]`; the head is the kept original. -/
def DuplicateGroup.originalImage (g : DuplicateGroup) : Option Img :=
  g.images.head?

/-- The images offered for deletion by the duplicates page: everything except
the kept head. -/
def DuplicateGroup.duplicateImages (g : DuplicateGroup) : List Img :=
  g.images.tail

/-- Effect of the page's delete confirmation on an image library: exactly the
group's `duplicateImages` are removed. -/
def deleteDuplicates (library : List Img) (g : DuplicateGroup) : List Img :=
  library.filter fun i => ¬ i ∈ g.duplicateImages

/-! ## Concrete sample data

Three scanned images realising the spec's scenario distances: `imgA` and
`imgB` have fingerprint distance 3/100, `imgC` is at distance 10/100 from
`imgA` (and 7/100 from `imgB`). All have 100 pixels. -/

def imgA : Img :=
  { id := 1, filename := "a.jpg", created_at := 1, file_size := 100,
    width := 10, height := 10, status := .complete, stage := none,
    pixels := List.replicate 50 0 ++ List.replicate 50 255 }

def imgB : Img :=
  { id := 2, filename := "b.jpg", created_at := 2, file_size := 100,
    width := 10, height := 10, status := .complete, stage := none,
    pixels := List.replicate 47 0 ++ List.replicate 53 255 }

def imgC : Img :=
  { id := 3, filename := "c.jpg", created_at := 3, file_size := 100,
    width := 10, height := 10, status := .complete, stage := none,
    pixels := List.replicate 40 0 ++ List.replicate 60 255 }

/-- The duplicate group the scan scenario produces: `imgA` kept, `imgB` the
duplicate, similarity 0.97, classified `similar`. -/
def groupAB : DuplicateGroup :=
  { id := "1", images := [imgA, imgB], similarity := 97 / 100,
    type := .similar, source := .output }

/-- A sample in-flight record used to instantiate record-level theorems. -/
def sampleRecord : Img :=
  { id := 7, filename := "s.tif", created_at := 5, file_size := 42,
    width := 4, height := 4, status := .processing,
    stage := some .ingestion, pixels := [0, 255, 0, 255] }

/-- A measurement giving every preset the same score. -/
def flatMeasure : PresetName → EnhanceMetrics := fun _ =>
  { sharpness := 1, contrast := 1, dynamicRange := 1 }

/-- A sample error-log entry. -/
def sampleError : ErrorLogEntry :=
  { filename := "bad.tif", error := "unreadable",
    timestamp := "2026-02-11T10:00:00", stage := "enhancement" }

/-- A session with one error, no completion for 30 minutes, and a non-empty
error log. -/
def sampleSession : SessionState :=
  { error_count := 1, completed_session := 0,
    minutesSinceLastCompletion := some 30, error_log := [sampleError] }

/-- A non-empty queue. -/
def sampleQueue : QueueState := { input_queue := 1, analysed_queue := 0 }

end Diabay

/-! # Theorems -/

namespace Diabay

/-- C4: every `ImageRecord` status is one of pending, processing, complete,
error, and every stage value that can be set is one of ingestion,
duplicate_check, enhancement, tagging, saving; no other value occurs. -/
theorem c4_status_stage_closed (r : Img) :
    r.status.toStr ∈ ["pending", "processing", "complete", "error"] ∧
    ∀ st : ProcessingStage, r.stage = some st →
      st.toStr ∈
        ["ingestion", "duplicate_check", "enhancement", "tagging", "saving"] := by
  constructor
  · cases r.status <;> simp [ImageStatus.toStr]
  · intro st _
    cases st <;> simp [ProcessingStage.toStr]

/-- Witness for C4 at a concrete in-flight record. -/
theorem c4_witness :
    sampleRecord.status.toStr ∈ ["pending", "processing", "complete", "error"] ∧
    ProcessingStage.ingestion.toStr ∈
      ["ingestion", "duplicate_check", "enhancement", "tagging", "saving"] :=
  ⟨(c4_status_stage_closed sampleRecord).1,
   (c4_status_stage_closed sampleRecord).2 .ingestion rfl⟩

/-- C9: `handleWebSocketMessage` on an `image_deleted` message updates only
`lastDeletedImageId`; on any other message it replaces `stats`, stamps
`lastUpdate`, sets `isConnected`, and leaves `lastDeletedImageId` and
`connectionStatus` alone. -/
theorem c9_handle_message_frame (s : StatsStore) (now : ℕ) :
    (∀ (image_id : ℕ) (filename : String),
      (handleWebSocketMessage now (.imageDeleted image_id filename) s).lastDeletedImageId
          = some image_id ∧
      (handleWebSocketMessage now (.imageDeleted image_id filename) s).stats = s.stats ∧
      (handleWebSocketMessage now (.imageDeleted image_id filename) s).lastUpdate
          = s.lastUpdate ∧
      (handleWebSocketMessage now (.imageDeleted image_id filename) s).isConnected
          = s.isConnected ∧
      (handleWebSocketMessage now (.imageDeleted image_id filename) s).connectionStatus
          = s.connectionStatus) ∧
    (∀ ps : PipelineStats,
      (handleWebSocketMessage now (.statsUpdate ps) s).stats = some ps ∧
      (handleWebSocketMessage now (.statsUpdate ps) s).lastUpdate = some now ∧
      (handleWebSocketMessage now (.statsUpdate ps) s).isConnected = true ∧
      (handleWebSocketMessage now (.statsUpdate ps) s).lastDeletedImageId
          = s.lastDeletedImageId ∧
      (handleWebSocketMessage now (.statsUpdate ps) s).connectionStatus
          = s.connectionStatus) := by
  refine ⟨fun image_id filename => ?_, fun ps => ?_⟩ <;>
    simp [handleWebSocketMessage]

/-- C10: the scheduled reconnect delay for attempt `n` equals
`min(reconnectDelay * 1.5^(n-1), 30000)` with the 2000 ms default base, is
nondecreasing in the attempt number, and never exceeds 30 seconds. -/
theorem c10_reconnect_backoff (base : ℚ) (n m : ℕ)
    (hbase : 0 ≤ base) (hnm : n ≤ m) :
    reconnectBackoffDelay defaultReconnectDelay n
        = min (2000 * (3 / 2) ^ (n - 1)) 30000 ∧
    reconnectBackoffDelay base n ≤ reconnectBackoffDelay base m ∧
    reconnectBackoffDelay base n ≤ 30000 := by
  refine ⟨rfl, ?_, ?_⟩
  · exact min_le_min
      (mul_le_mul_of_nonneg_left
        (pow_le_pow_right₀ (by norm_num) (Nat.sub_le_sub_right hnm 1)) hbase)
      le_rfl
  · exact min_le_right _ _

/-- Witness for C10 at the default base and attempts 1 ≤ 2. -/
theorem c10_witness :
    (0 : ℚ) ≤ 2000 ∧ (1 : ℕ) ≤ 2 ∧
    (reconnectBackoffDelay defaultReconnectDelay 1
        = min (2000 * (3 / 2) ^ (1 - 1)) 30000 ∧
     reconnectBackoffDelay 2000 1 ≤ reconnectBackoffDelay 2000 2 ∧
     reconnectBackoffDelay 2000 1 ≤ 30000) :=
  ⟨by norm_num, by norm_num, c10_reconnect_backoff 2000 1 2 (by norm_num) (by norm_num)⟩

/-- C5: pictures-per-hour is completed_session divided by elapsed session
hours and the ETA is the remaining queue times the average time per image;
at 12 completions over 2 hours the rate is 6/hour, and 18 remaining images
at the matching average pace give an ETA of 180 minutes. -/
theorem c5_performance_formulas :
    (∀ (c : ℕ) (el : ℚ), picturesPerHour c el = c / el) ∧
    (∀ (r : ℕ) (a : ℚ), etaMinutes r a = r * a / 60) ∧
    picturesPerHour 12 2 = 6 ∧
    etaMinutes 18 (3600 / picturesPerHour 12 2) = 180 := by
  refine ⟨fun c el => rfl, fun r a => rfl, ?_, ?_⟩
  · norm_num [picturesPerHour]
  · norm_num [etaMinutes, picturesPerHour]

/-- C6: the reported trend is exactly one of accelerating, stable, degrading:
accelerating precisely when the rolling average of the last N completion
times is at least 10% below the previous N's average, degrading precisely
when at least 10% above, and stable in exactly the remaining band. -/
theorem c6_trend_classification (times : List ℚ) (N : ℕ)
    (hp : 0 < avgTime ((times.drop N).take N)) :
    (processingTrend times N = .accelerating ↔
      avgTime (times.take N) ≤ (9 / 10) * avgTime ((times.drop N).take N)) ∧
    (processingTrend times N = .degrading ↔
      (11 / 10) * avgTime ((times.drop N).take N) ≤ avgTime (times.take N)) ∧
    (processingTrend times N = .stable ↔
      ((9 / 10) * avgTime ((times.drop N).take N) < avgTime (times.take N) ∧
       avgTime (times.take N)
         < (11 / 10) * avgTime ((times.drop N).take N))) := by
  unfold processingTrend classifyTrend
  split_ifs with h1 h2
  · exact ⟨iff_of_true rfl h1,
      iff_of_false (by simp) (not_le.2 (by linarith)),
      iff_of_false (by simp) (fun h => absurd h.1 (not_lt.2 (by linarith)))⟩
  · exact ⟨iff_of_false (by simp) h1,
      iff_of_true rfl h2,
      iff_of_false (by simp) (fun h => absurd h.2 (not_lt.2 (by linarith)))⟩
  · exact ⟨iff_of_false (by simp) h1,
      iff_of_false (by simp) h2,
      iff_of_true rfl ⟨not_le.1 h1, not_le.1 h2⟩⟩

/-- Witness for C6: two recent completions averaging 1s against two previous
ones averaging 2s classify as accelerating. -/
theorem c6_witness :
    0 < avgTime ((([1, 1, 2, 2] : List ℚ).drop 2).take 2) ∧
    (processingTrend [1, 1, 2, 2] 2 = .accelerating ↔
      avgTime (([1, 1, 2, 2] : List ℚ).take 2)
        ≤ (9 / 10) * avgTime ((([1, 1, 2, 2] : List ℚ).drop 2).take 2)) :=
  ⟨by norm_num [avgTime], (c6_trend_classification [1, 1, 2, 2] 2 (by norm_num [avgTime])).1⟩

/-- C1: auto-mode enhancement selection always returns exactly the declared
parameter set of one of the three presets, and the selected preset scores at
least as high as every preset under the 40/30/30 weighted score. -/
theorem c1_auto_select_preset (measure : PresetName → EnhanceMetrics) :
    (autoSelectParams measure = presetParams .gentle ∨
     autoSelectParams measure = presetParams .balanced ∨
     autoSelectParams measure = presetParams .aggressive) ∧
    ∀ p ∈ presetList,
      enhancementScore (measure p)
        ≤ enhancementScore (measure (autoSelect measure)) := by
  by_cases h1 :
      enhancementScore (measure .gentle) < enhancementScore (measure .balanced)
  · by_cases h2 :
        enhancementScore (measure .balanced)
          < enhancementScore (measure .aggressive)
    · have hsel : autoSelect measure = .aggressive := by
        simp [autoSelect, pickBest, h1, h2]
      refine ⟨Or.inr (Or.inr (by rw [autoSelectParams, hsel])), ?_⟩
      intro p hp
      rw [hsel]
      simp only [presetList, List.mem_cons, List.not_mem_nil, or_false] at hp
      rcases hp with rfl | rfl | rfl <;> linarith
    · have hsel : autoSelect measure = .balanced := by
        simp [autoSelect, pickBest, h1, h2]
      refine ⟨Or.inr (Or.inl (by rw [autoSelectParams, hsel])), ?_⟩
      intro p hp
      rw [hsel]
      simp only [presetList, List.mem_cons, List.not_mem_nil, or_false] at hp
      rcases hp with rfl | rfl | rfl <;> linarith
  · by_cases h2 :
        enhancementScore (measure .gentle)
          < enhancementScore (measure .aggressive)
    · have hsel : autoSelect measure = .aggressive := by
        simp [autoSelect, pickBest, h1, h2]
      refine ⟨Or.inr (Or.inr (by rw [autoSelectParams, hsel])), ?_⟩
      intro p hp
      rw [hsel]
      simp only [presetList, List.mem_cons, List.not_mem_nil, or_false] at hp
      rcases hp with rfl | rfl | rfl <;> linarith
    · have hsel : autoSelect measure = .gentle := by
        simp [autoSelect, pickBest, h1, h2]
      refine ⟨Or.inl (by rw [autoSelectParams, hsel]), ?_⟩
      intro p hp
      rw [hsel]
      simp only [presetList, List.mem_cons, List.not_mem_nil, or_false] at hp
      rcases hp with rfl | rfl | rfl <;> linarith

/-- Witness for C1: under a flat measurement the selector keeps the first
preset and its score bound holds at the gentle preset. -/
theorem c1_witness :
    PresetName.gentle ∈ presetList ∧
    enhancementScore (flatMeasure .gentle)
      ≤ enhancementScore (flatMeasure (autoSelect flatMeasure)) :=
  ⟨by decide, (c1_auto_select_preset flatMeasure).2 .gentle (by decide)⟩

/-- C7: the alerts of a telemetry snapshot are recomputed from the session
and queue state, and every generated alert has type stall_warning,
high_error_rate or all_errors, with a severity among info, warning, error. -/
theorem c7_alerts_generated (stallM errThr : ℚ) (now : String)
    (sess : SessionState) (q : QueueState) :
    snapshotAlerts stallM errThr now sess q
        = some (generateAlerts stallM errThr now sess q) ∧
    ∀ a ∈ generateAlerts stallM errThr now sess q,
      (a.type = .stall_warning ∨ a.type = .high_error_rate ∨
        a.type = .all_errors) ∧
      ∃ sev, a.severity = some sev := by
  refine ⟨rfl, ?_⟩
  intro a ha
  unfold generateAlerts at ha
  rcases List.mem_append.1 ha with h | h
  · rcases List.mem_append.1 h with h' | h'
    · cases hmc : sess.minutesSinceLastCompletion with
      | none => rw [hmc] at h'; simp at h'
      | some m =>
          rw [hmc] at h'
          dsimp only at h'
          split_ifs at h' with hc
          · rw [List.mem_singleton] at h'
            subst h'
            exact ⟨Or.inl rfl, ⟨.warning, rfl⟩⟩
          · simp at h'
    · split_ifs at h' with hc
      · rw [List.mem_singleton] at h'
        subst h'
        exact ⟨Or.inr (Or.inl rfl), ⟨.error, rfl⟩⟩
      · simp at h'
  · split_ifs at h with hc
    · rw [List.mem_singleton] at h
      subst h
      exact ⟨Or.inr (Or.inr rfl), ⟨.info, rfl⟩⟩
    · simp at h

/-- Witness for C7: a stalled session with one error and a queued file fires
a stall_warning alert with warning severity. -/
theorem c7_witness :
    ({ type := .stall_warning,
       message := "No completion while queue is non-empty",
       timestamp := "t", severity := some .warning } : Alert)
        ∈ generateAlerts 10 (1 / 2) "t" sampleSession sampleQueue ∧
    ((({ type := .stall_warning,
         message := "No completion while queue is non-empty",
         timestamp := "t", severity := some .warning } : Alert).type
            = AlertType.stall_warning ∨
      ({ type := .stall_warning,
         message := "No completion while queue is non-empty",
         timestamp := "t", severity := some .warning } : Alert).type
            = AlertType.high_error_rate ∨
      ({ type := .stall_warning,
         message := "No completion while queue is non-empty",
         timestamp := "t", severity := some .warning } : Alert).type
            = AlertType.all_errors) ∧
     ∃ sev,
       ({ type := .stall_warning,
          message := "No completion while queue is non-empty",
          timestamp := "t", severity := some .warning } : Alert).severity
            = some sev) := by
  have hmem :
      ({ type := .stall_warning,
         message := "No completion while queue is non-empty",
         timestamp := "t", severity := some .warning } : Alert)
        ∈ generateAlerts 10 (1 / 2) "t" sampleSession sampleQueue := by
    unfold generateAlerts sampleSession sampleQueue
    norm_num
  exact ⟨hmem, c7_alerts_generated 10 (1 / 2) "t" sampleSession sampleQueue
    |>.2 _ hmem⟩

/-- After a scan from a cold cache, looking an image's fingerprint up in the
resulting cache gives the same fingerprint a cold computation would. -/
theorem fpOf_after_first_scan (src : ScanSource) (imgs : List Img) (t : ℚ)
    (h : (imgs.map Img.id).Nodup) {i : Img} (hi : i ∈ imgs) :
    fpOf (runScan emptyCache src imgs t).2 i = fpOf emptyCache i := by
  have hfind : (imgs.find? fun j => j.id = i.id).isSome := by
    rw [List.find?_isSome]
    exact ⟨i, hi, by simp⟩
  obtain ⟨j, hj⟩ := Option.isSome_iff_exists.1 hfind
  have hpj : j.id = i.id := by simpa using List.find?_some hj
  have hmem := List.mem_of_find?_eq_some hj
  have hij : j = i := List.inj_on_of_nodup_map h hmem hi hpj
  subst hij
  simp [runScan, fpOf, emptyCache, hj]

/-- C8: a second duplicate scan over the same unchanged files with the same
threshold — now hitting the fingerprint cache the first scan filled —
returns exactly the groups of the first scan. -/
theorem c8_scan_idempotent (src : ScanSource) (imgs : List Img) (t : ℚ)
    (h : (imgs.map Img.id).Nodup) :
    (runScan (runScan emptyCache src imgs t).2 src imgs t).1
      = (runScan emptyCache src imgs t).1 := by
  have hpairs : pairsOf (runScan emptyCache src imgs t).2 imgs
      = pairsOf emptyCache imgs :=
    List.map_congr_left fun i hi => by
      rw [fpOf_after_first_scan src imgs t h hi]
  show scanCore src t (pairsOf (runScan emptyCache src imgs t).2 imgs)
      = scanCore src t (pairsOf emptyCache imgs)
  rw [hpairs]

/-- Witness for C8: rescanning the three sample images reproduces the first
scan's groups. -/
theorem c8_witness :
    (([imgA, imgB, imgC].map Img.id).Nodup) ∧
    (runScan (runScan emptyCache .output [imgA, imgB, imgC] (19 / 20)).2
        .output [imgA, imgB, imgC] (19 / 20)).1
      = (runScan emptyCache .output [imgA, imgB, imgC] (19 / 20)).1 :=
  ⟨by decide, c8_scan_idempotent .output [imgA, imgB, imgC] (19 / 20) (by decide)⟩

/-! ### Concrete fingerprint facts for the scan scenario -/

theorem ham_AB : hammingDistance (fingerprint imgA) (fingerprint imgB) = 3 := by
  decide

theorem ham_BA : hammingDistance (fingerprint imgB) (fingerprint imgA) = 3 := by
  decide

theorem ham_AA : hammingDistance (fingerprint imgA) (fingerprint imgA) = 0 := by
  decide

theorem ham_BB : hammingDistance (fingerprint imgB) (fingerprint imgB) = 0 := by
  decide

theorem ham_CA : hammingDistance (fingerprint imgC) (fingerprint imgA) = 10 := by
  decide

theorem ham_CB : hammingDistance (fingerprint imgC) (fingerprint imgB) = 7 := by
  decide

theorem dist_AB : fpDistance (fingerprint imgA) (fingerprint imgB) = 3 / 100 := by
  rw [fpDistance, ham_AB]
  norm_num [(by decide : (fingerprint imgA).length = 100),
    (by decide : (fingerprint imgB).length = 100)]

theorem dist_BA : fpDistance (fingerprint imgB) (fingerprint imgA) = 3 / 100 := by
  rw [fpDistance, ham_BA]
  norm_num [(by decide : (fingerprint imgA).length = 100),
    (by decide : (fingerprint imgB).length = 100)]

theorem dist_AA : fpDistance (fingerprint imgA) (fingerprint imgA) = 0 := by
  rw [fpDistance, ham_AA]
  norm_num

theorem dist_BB : fpDistance (fingerprint imgB) (fingerprint imgB) = 0 := by
  rw [fpDistance, ham_BB]
  norm_num

theorem dist_CA : fpDistance (fingerprint imgC) (fingerprint imgA) = 10 / 100 := by
  rw [fpDistance, ham_CA]
  norm_num [(by decide : (fingerprint imgA).length = 100),
    (by decide : (fingerprint imgC).length = 100)]

theorem dist_CB : fpDistance (fingerprint imgC) (fingerprint imgB) = 7 / 100 := by
  rw [fpDistance, ham_CB]
  norm_num [(by decide : (fingerprint imgB).length = 100),
    (by decide : (fingerprint imgC).length = 100)]

theorem w_BA : withinThreshold (19 / 20) (imgB, fingerprint imgB)
    (imgA, fingerprint imgA) = true := by
  simp only [withinThreshold, decide_eq_true_eq, dist_BA]
  norm_num

theorem w_CA : withinThreshold (19 / 20) (imgC, fingerprint imgC)
    (imgA, fingerprint imgA) = false := by
  simp only [withinThreshold, decide_eq_false_iff_not, dist_CA]
  norm_num

theorem w_CB : withinThreshold (19 / 20) (imgC, fingerprint imgC)
    (imgB, fingerprint imgB) = false := by
  simp only [withinThreshold, decide_eq_false_iff_not, dist_CB]
  norm_num

theorem comp_scenario :
    components (19 / 20) (pairsOf emptyCache [imgA, imgB, imgC]) =
      [[(imgC, fingerprint imgC)],
       [(imgB, fingerprint imgB), (imgA, fingerprint imgA)]] := by
  simp [components, pairsOf, fpOf, emptyCache, mergeStep, w_BA, w_CA, w_CB]

theorem order_scenario :
    orderGroup [(imgB, fingerprint imgB), (imgA, fingerprint imgA)] =
      [(imgA, fingerprint imgA), (imgB, fingerprint imgB)] := by
  decide

theorem gd_scenario :
    groupDistance [(imgB, fingerprint imgB), (imgA, fingerprint imgA)]
      = 3 / 100 := by
  simp [groupDistance, dist_BB, dist_BA, dist_AB, dist_AA]
  norm_num [max_def]

theorem scan_scenario :
    scan .output [imgA, imgB, imgC] (19 / 20) = [groupAB] := by
  show scanCore .output (19 / 20) (pairsOf emptyCache [imgA, imgB, imgC])
      = [groupAB]
  rw [scanCore, comp_scenario]
  simp only [List.filter]
  norm_num
  rw [mkGroup]
  simp only [order_scenario]
  rw [gd_scenario]
  simp [groupAB, classifyGroup, nearThreshold]
  norm_num
  decide

/-- C2 counterexample: at threshold 0.95 the two images at fingerprint
distance 0.03 are grouped, but the group's type is `similar`, not `near` —
0.03 exceeds the tight secondary threshold 0.02 the same claim fixes. -/
theorem c2_counterexample :
    fpDistance (fingerprint imgA) (fingerprint imgB) = 3 / 100 ∧
    (scan .output [imgA, imgB, imgC] (19 / 20)).map DuplicateGroup.type
      = [DupType.similar] ∧
    DupType.similar ≠ DupType.near := by
  refine ⟨dist_AB, ?_, by decide⟩
  rw [scan_scenario]
  rfl

/-- C2 (amended): with threshold 0.95 and source `output`, two images at
fingerprint distance 0.03 land in one duplicate group of similarity 0.97 and
type `similar` (0.03 is beyond the 0.02 near-threshold), the third image at
distance 0.10 and 0.07 from them is not grouped; and a group's type is
`exact` exactly at distance 0, `near` exactly for positive distance at most
0.02, and `similar` exactly beyond. -/
theorem c2_grouping_amended :
    fpDistance (fingerprint imgA) (fingerprint imgB) = 3 / 100 ∧
    fpDistance (fingerprint imgC) (fingerprint imgA) = 10 / 100 ∧
    fpDistance (fingerprint imgC) (fingerprint imgB) = 7 / 100 ∧
    scan .output [imgA, imgB, imgC] (19 / 20) = [groupAB] ∧
    groupAB.images = [imgA, imgB] ∧
    groupAB.type = .similar ∧
    groupAB.similarity = 97 / 100 ∧
    ∀ d : ℚ,
      (classifyGroup d = .exact ↔ d = 0) ∧
      (classifyGroup d = .near ↔ d ≠ 0 ∧ d ≤ nearThreshold) ∧
      (classifyGroup d = .similar ↔ d ≠ 0 ∧ nearThreshold < d) := by
  refine ⟨dist_AB, dist_CA, dist_CB, scan_scenario, rfl, rfl, rfl, ?_⟩
  intro d
  unfold classifyGroup
  split_ifs with h1 h2
  · exact ⟨iff_of_true rfl h1,
      iff_of_false (by simp) fun h => h.1 h1,
      iff_of_false (by simp) fun h => h.1 h1⟩
  · exact ⟨iff_of_false (by simp) h1,
      iff_of_true rfl ⟨h1, h2⟩,
      iff_of_false (by simp) fun h => absurd h.2 (not_lt.2 h2)⟩
  · exact ⟨iff_of_false (by simp) h1,
      iff_of_false (by simp) fun h => h2 h.2,
      iff_of_true rfl ⟨h1, not_le.1 h2⟩⟩

/-! ### Structural lemmas about the clustering -/

/-- A merge step permutes the flattened components into the new image
followed by the old flattened components. -/
theorem mergeStep_flatten_perm (t : ℚ) (comps : List (List FpImg)) (x : FpImg) :
    List.Perm (mergeStep t comps x).flatten (x :: comps.flatten) := by
  unfold mergeStep
  simp only [List.flatten_cons, List.cons_append]
  refine List.Perm.cons x ?_
  rw [← List.flatten_append]
  exact (List.filter_append_perm _ comps).flatten

/-- Flattening the components of a list of images yields a permutation of
the accumulator's content followed by those images. -/
theorem components_flatten_perm (t : ℚ) (pairs : List FpImg) :
    ∀ acc : List (List FpImg),
      List.Perm (pairs.foldl (mergeStep t) acc).flatten
        (acc.flatten ++ pairs) := by
  induction pairs with
  | nil => intro acc; simp
  | cons x xs ih =>
      intro acc
      rw [List.foldl_cons]
      refine (ih (mergeStep t acc x)).trans ?_
      refine (List.Perm.append_right xs (mergeStep_flatten_perm t acc x)).trans ?_
      rw [List.cons_append]
      exact List.perm_middle.symm

/-- The chosen representative is one of the candidates. -/
theorem repOf_mem (r : FpImg) (xs : List FpImg) : repOf r xs ∈ r :: xs := by
  induction xs generalizing r with
  | nil => simp [repOf]
  | cons x xs ih =>
      rw [repOf]
      split
      · exact List.mem_cons_of_mem r (ih x)
      · rcases List.mem_cons.1 (ih r) with h | h
        · rw [h]; exact List.mem_cons_self r _
        · exact List.mem_cons_of_mem r (List.mem_cons_of_mem x h)

/-- Putting a member in front of the list with its first occurrence removed
is a permutation. -/
theorem removeFirst_perm (x : FpImg) (l : List FpImg) (h : x ∈ l) :
    List.Perm (x :: removeFirst x l) l := by
  induction l with
  | nil => cases h
  | cons y ys ih =>
      rw [removeFirst]
      split
      · next heq => rw [heq]
      · next hne =>
          rcases List.mem_cons.1 h with h' | h'
          · exact absurd h'.symm hne
          · exact (List.Perm.swap y x _).trans (List.Perm.cons y (ih h'))

/-- Ordering a component representative-first permutes its members. -/
theorem orderGroup_perm (m : FpImg) (ms : List FpImg) :
    List.Perm (orderGroup (m :: ms)) (m :: ms) := by
  rw [orderGroup]
  exact removeFirst_perm (repOf m ms) (m :: ms) (repOf_mem m ms)

/-- C3: every group a scan over distinct files produces has at least two
member images; its representative is the head of the member list, is a
member, and heads the exact decomposition into kept image plus duplicates;
deleting the group's duplicates from a library keeps the representative and
removes only images that are among the duplicates. -/
theorem c3_group_invariants (src : ScanSource) (imgs : List Img) (t : ℚ)
    (hids : (imgs.map Img.id).Nodup) :
    ∀ g ∈ scan src imgs t,
      2 ≤ g.images.length ∧
      ∃ rep, g.originalImage = some rep ∧ rep ∈ g.images ∧
        g.images = rep :: g.duplicateImages ∧
        rep ∉ g.duplicateImages ∧
        ∀ lib : List Img, rep ∈ lib →
          rep ∈ deleteDuplicates lib g ∧
          ∀ x ∈ lib, x ∉ deleteDuplicates lib g → x ∈ g.duplicateImages := by
  intro g hg
  have himgs : imgs.Nodup := hids.of_map
  simp only [scan, runScan, scanCore] at hg
  obtain ⟨c, hcf, hgc⟩ := List.mem_map.1 hg
  have hc2 : 2 ≤ c.length := by simpa using (List.mem_filter.1 hcf).2
  have hcm : c ∈ components t (pairsOf emptyCache imgs) :=
    (List.mem_filter.1 hcf).1
  have hperm : List.Perm (components t (pairsOf emptyCache imgs)).flatten
      (pairsOf emptyCache imgs) := by
    simpa [components] using
      components_flatten_perm t (pairsOf emptyCache imgs) []
  have hsub : c.Sublist (components t (pairsOf emptyCache imgs)).flatten :=
    List.sublist_flatten_of_mem hcm
  have hmapfst : (pairsOf emptyCache imgs).map Prod.fst = imgs := by
    simp [pairsOf, Function.comp_def]
  have hflat_nodup :
      ((components t (pairsOf emptyCache imgs)).flatten.map Prod.fst).Nodup := by
    have hp : List.Perm
        ((components t (pairsOf emptyCache imgs)).flatten.map Prod.fst)
        ((pairsOf emptyCache imgs).map Prod.fst) := hperm.map _
    rw [hmapfst] at hp
    exact hp.nodup_iff.2 himgs
  have hcfst_nodup : (c.map Prod.fst).Nodup :=
    hflat_nodup.sublist (hsub.map Prod.fst)
  obtain ⟨m, ms, rfl⟩ : ∃ m ms, c = m :: ms := by
    cases c with
    | nil => simp at hc2
    | cons m ms => exact ⟨m, ms, rfl⟩
  have himages : g.images
      = ((repOf m ms) :: removeFirst (repOf m ms) (m :: ms)).map Prod.fst := by
    rw [← hgc]; rfl
  have hnodup_images : g.images.Nodup := by
    rw [himages]
    have hp : List.Perm ((orderGroup (m :: ms)).map Prod.fst)
        ((m :: ms).map Prod.fst) := (orderGroup_perm m ms).map _
    exact hp.nodup_iff.2 hcfst_nodup
  have hlen : g.images.length = (m :: ms).length := by
    rw [himages, List.length_map]
    exact (orderGroup_perm m ms).length_eq
  have hdups : g.duplicateImages
      = (removeFirst (repOf m ms) (m :: ms)).map Prod.fst := by
    rw [DuplicateGroup.duplicateImages, himages]; rfl
  refine ⟨hlen ▸ hc2, (repOf m ms).1, ?_, ?_, ?_, ?_, ?_⟩
  · rw [DuplicateGroup.originalImage, himages]; rfl
  · rw [himages]; exact List.mem_cons_self _ _
  · rw [hdups, himages]; rfl
  · rw [hdups]
    have hh := hnodup_images
    rw [himages] at hh
    exact (List.nodup_cons.1 hh).1
  · intro lib hlib
    have hnotdup : (repOf m ms).1 ∉ g.duplicateImages := by
      rw [hdups]
      have hh := hnodup_images
      rw [himages] at hh
      exact (List.nodup_cons.1 hh).1
    constructor
    · exact List.mem_filter.2 ⟨hlib, by simpa using hnotdup⟩
    · intro x hx hxf
      by_contra hnd
      exact hxf (List.mem_filter.2 ⟨hx, by simpa using hnd⟩)

/-- Witness for C3: the scenario's group keeps `imgA` as representative and
its deletion spares `imgA`. -/
theorem c3_witness :
    (([imgA, imgB, imgC].map Img.id).Nodup) ∧
    groupAB ∈ scan ScanSource.output [imgA, imgB, imgC] (19 / 20) ∧
    2 ≤ groupAB.images.length ∧
    groupAB.originalImage = some imgA ∧
    imgA ∉ groupAB.duplicateImages ∧
    imgA ∈ deleteDuplicates [imgA, imgB, imgC] groupAB := by
  have hmem : groupAB ∈ scan ScanSource.output [imgA, imgB, imgC] (19 / 20) := by
    rw [scan_scenario]
    exact List.mem_cons_self _ _
  obtain ⟨h2, rep, hrep, -, -, hnot, hdel⟩ :=
    c3_group_invariants .output [imgA, imgB, imgC] (19 / 20) (by decide)
      groupAB hmem
  have hrepA : rep = imgA := by
    have : some imgA = some rep := (rfl : groupAB.originalImage = some imgA).symm.trans hrep
    exact (Option.some.inj this).symm
  subst hrepA
  exact ⟨by decide, hmem, h2, hrep, hnot,
    (hdel [imgA, imgB, imgC] (List.mem_cons_self _ _)).1⟩

end Diabay
